import Mathlib

/-!
Verification of the view-synchronization and edit-history overlay engine of
`src/frontend-next/app/page.tsx` (a Next.js client page).

The React component is a single state container whose event handlers apply
one remote response each.  We embed that state container shallowly:

* every `useState` field becomes a field of `ClientState`;
* each event handler (`loadDataset`, `openDataset`, `runNLQ`, `fetchPage`,
  `handleUndo`, `handleClearHighlights`, `handleShowAllInTable`) becomes a
  pure function from the pre-call state and the remote response(s) it
  consumes to the post-call state;
* JavaScript `Map` / `Set` values are modelled as insertion-ordered
  association lists / lists without duplicates (`mapSet`, `mapDelete`,
  `setAdd`), which matches the iteration-order semantics of JS collections;
* JavaScript truthiness on optional strings / numbers (`x || y`,
  `if (x) ...`) is modelled by `truthyStr`, `orStr`, `strOrD`, `strOrNull`,
  `natOr` — `null`/`undefined`/`""`/`0` are falsy.

A handler that `await`s an inner `fetchPage` reads `session`, `limit`,
`rowCount` from its render closure (the state at handler entry), while its
`setX` writes thread through; `fetchPage` therefore takes both the closure
state `cl` and the current threaded state `cur`.
-/

namespace PolarDemo

/-- Scalar-or-composite cell value of a row (`Record<string, unknown>` in the
source; composite values are serialized by `formatValue`). -/
inductive CellValue where
  | null
  | str (s : String)
  | num (n : Int)
  | boolean (b : Bool)
  | composite (serialized : String)
deriving DecidableEq, Repr

/-- A row as received from the backend: an insertion-ordered record of
column name to value (possibly including the `__row_id` bookkeeping key). -/
abbrev Row := List (String × CellValue)

/-- One entry of `NLExprResponse.updated_cells`. -/
structure UpdatedCell where
  row_id : Nat
  column : String
  old_value : Option String
  new_value : Option String
deriving DecidableEq, Repr

/-- Response of `POST /dataset/load` (and `/dataset/open`).  Fields the code
reads defensively (`data.x || d`) are modelled as `Option`. -/
structure LoadResponse where
  dataset_id : Option String
  session : Option String
  columns : Option (List (String × String))
  row_count : Option Nat
  preview : Option (List Row)
deriving DecidableEq, Repr

/-- Response of `POST /nlq/expr`. -/
structure NLExprResponse where
  code : Option String
  preview : Option (List Row)
  total_count : Option Nat
  updated_cells : Option (List UpdatedCell)
  undo_count : Option Nat
  error : Option String
deriving DecidableEq, Repr

/-- Response of `POST /dataset/undo`. -/
structure UndoResponse where
  success : Bool
  dataset_id : String
  session : String
  columns : Option (List (String × String))
  row_count : Option Nat
  preview : Option (List Row)
  message : Option String
  undo_count : Option Nat
deriving DecidableEq, Repr

/-- Response of `POST /dataset/page`. -/
structure PageResponse where
  rows : Option (List Row)
  total : Option Nat
deriving DecidableEq, Repr

/-- Role of a chat turn. -/
inductive MsgRole where
  | user
  | assistant
deriving DecidableEq, Repr

/-- Kind tag of a chat turn (`"code" | "text" | "error" | "preview" | "update"`). -/
inductive MsgKind where
  | code
  | text
  | error
  | preview
  | update
deriving DecidableEq, Repr

/-- One entry of the `messages` transcript state. -/
structure ChatMsg where
  role : MsgRole
  text : String
  kind : Option MsgKind := none
  previewData : Option (List Row) := none
  totalCount : Option Nat := none
  activeCode : Option String := none
  updatedCount : Option Nat := none
deriving DecidableEq, Repr

/-! ### JavaScript truthiness helpers

`null`, `undefined` and `""` are falsy for strings; `0` is falsy for
numbers.  `Option.none` models both `null` and `undefined`. -/

/-- Truthiness of a `string | null | undefined` value. -/
def truthyStr : Option String → Bool
  | none => false
  | some s => s != ""

/-- JS `a || b` on two optional strings. -/
def orStr (a b : Option String) : Option String :=
  if truthyStr a then a else b

/-- JS `a || d` where `d` is a plain string (so the result is a string). -/
def strOrD (a : Option String) (d : String) : String :=
  if truthyStr a then a.getD d else d

/-- JS `a || null` (also `a || undefined`): an empty or absent string
becomes `null`. -/
def strOrNull (a : Option String) : Option String :=
  if truthyStr a then a else none

/-- JS `a || d` on an optional number: absent or zero falls back to `d`. -/
def natOr (a : Option Nat) (d : Nat) : Nat :=
  match a with
  | none => d
  | some n => if n = 0 then d else n

/-- JS `a || 0` on an optional number. -/
def natOr0 (a : Option Nat) : Nat :=
  natOr a 0

/-- JS `a || b` on two plain numbers: `0` is falsy. -/
def jsOrNat (a b : Nat) : Nat :=
  if a = 0 then b else a

/-! ### JS `Map` and `Set` as insertion-ordered lists -/

/-- `Map.prototype.set`: replace the value of an existing key in place,
otherwise append the new entry at the end (JS maps preserve insertion
order and keep a replaced key at its original position). -/
def mapSet : List (String × String) → String → String → List (String × String)
  | [], k, v => [(k, v)]
  | p :: rest, k, v => if p.1 = k then (k, v) :: rest else p :: mapSet rest k v

/-- `Map.prototype.delete`: remove the entry with the given key. -/
def mapDelete (m : List (String × String)) (k : String) : List (String × String) :=
  m.filter (fun p => p.1 != k)

/-- The key set (as an ordered list) of a JS map. -/
def mapKeys (m : List (String × String)) : List String :=
  m.map Prod.fst

/-- `Set.prototype.add`: append if not already present. -/
def setAdd (l : List Nat) (n : Nat) : List Nat :=
  if n ∈ l then l else l ++ [n]

/-! ### Small helpers from the component body -/

/-- `stripRowId` (page.tsx line 90): drop the `__row_id` field of every row,
keeping all other fields in their original order (object rest-destructuring
`const { __row_id, ...rest } = r` removes exactly that own property and
preserves the insertion order of the rest). -/
def stripRowId (rows : List Row) : List Row :=
  rows.map (fun r => r.filter (fun kv => kv.1 != "__row_id"))

/-- `stripColumns` (page.tsx line 96): drop the `__row_id` entry of the
column schema. -/
def stripColumns (cols : List (String × String)) : List (String × String) :=
  cols.filter (fun kv => kv.1 != "__row_id")

/-- The fixed highlight palette of `getRandomHighlightColor`. -/
def highlightColors : List String :=
  ["rgba(255, 182, 193, 0.6)", "rgba(173, 216, 230, 0.6)",
   "rgba(144, 238, 144, 0.6)", "rgba(255, 255, 224, 0.6)",
   "rgba(230, 230, 250, 0.6)", "rgba(255, 218, 185, 0.6)",
   "rgba(175, 238, 238, 0.6)", "rgba(255, 160, 122, 0.6)"]

/-- `getRandomHighlightColor`: `colors[Math.floor(Math.random() * colors.length)]`.
The random draw is modelled by the index `rand % colors.length`. -/
def getRandomHighlightColor (rand : Nat) : String :=
  (highlightColors.getD (rand % highlightColors.length) "")

/-- The cell key `` `${cell.row_id}-${cell.column}` `` used by the Highlight
Map and the Undo Stack. -/
def cellKey (c : UpdatedCell) : String :=
  toString c.row_id ++ "-" ++ c.column

/-- The ordered key list of one mutating operation (`operationKeys` in
`runNLQ`). -/
def operationKeys (cells : List UpdatedCell) : List String :=
  cells.map cellKey

/-- The `newHighlights` map of one operation: every cell key mapped to the
single operation color (`newHighlights.set(key, operationColor)` per cell). -/
def opHighlights (cells : List UpdatedCell) (color : String) : List (String × String) :=
  cells.foldl (fun m c => mapSet m (cellKey c) color) []

/-- `merged = new Map(prev); news.forEach((color, key) => merged.set(key, color))`. -/
def mergeMap (m news : List (String × String)) : List (String × String) :=
  news.foldl (fun acc kv => mapSet acc kv.1 kv.2) m

/-- The insertion-ordered set of row ids of one operation's cells
(`newUpdatedRowIds` in `runNLQ`). -/
def rowIdsOf (cells : List UpdatedCell) : List Nat :=
  cells.foldl (fun acc c => setAdd acc c.row_id) []

/-- `merged = new Set(prev); newUpdatedRowIds.forEach(id => merged.add(id))`. -/
def mergeRowIds (prev : List Nat) (cells : List UpdatedCell) : List Nat :=
  (rowIdsOf cells).foldl setAdd prev

/-- `parseInt(key.split("-")[0], 10)` on a highlight key, with the `isNaN`
guard: `none` models `NaN`.  Keys produced by the app always have the shape
`` `${row_id}-${column}` `` with a decimal `row_id`, on which `toNat?` of the
first dash-separated segment agrees with `parseInt`. -/
def keyRowId (key : String) : Option Nat :=
  ((key.splitOn "-").headD "").toNat?

/-- Rebuild `updatedRowIds` from the remaining Undo Stack after an undo
(`newStack.forEach(opKeys => opKeys.forEach(key => ...))` in `handleUndo`). -/
def rebuildRowIds (stack : List (List String)) : List Nat :=
  stack.foldl (fun acc opKeys =>
    opKeys.foldl (fun acc2 key =>
      match keyRowId key with
      | some rid => setAdd acc2 rid
      | none => acc2) acc) []

/-- `DEFAULT_PAGE_SIZE` constant of the source. -/
def DEFAULT_PAGE_SIZE : Nat := 500

/-! ### The client state container

One field per `useState` hook of the `Page` component, plus
`storageDatasetId` for the single durable `localStorage` slot. -/

/-- The full client state of the `Page` component. -/
structure ClientState where
  s3Path : String
  datasetId : Option String
  session : Option String
  columns : List (String × String)
  rowCount : Nat
  question : String
  code : String
  preview : List Row
  offset : Nat
  limit : Nat
  activeCode : Option String
  loading : Bool
  paging : Bool
  error : Option String
  messages : List ChatMsg
  showLoadModal : Bool
  highlightedCells : List (String × String)
  highlightStack : List (List String)
  filteredTotalCount : Nat
  rawPreview : List Row
  updatedRowIds : List Nat
  lastUpdatedColumn : Option String
  undoCount : Nat
  storageDatasetId : Option String
deriving DecidableEq, Repr

/-- The initial state of every `useState` hook. -/
def initialState : ClientState where
  s3Path := "s3://training-data-kg/100mb.xlsx"
  datasetId := none
  session := none
  columns := []
  rowCount := 0
  question := ""
  code := "--"
  preview := []
  offset := 0
  limit := DEFAULT_PAGE_SIZE
  activeCode := none
  loading := false
  paging := false
  error := none
  messages := []
  showLoadModal := false
  highlightedCells := []
  highlightStack := []
  filteredTotalCount := 0
  rawPreview := []
  updatedRowIds := []
  lastUpdatedColumn := none
  undoCount := 0
  storageDatasetId := none

/-! ### Derived pagination values and control affordances -/

/-- `Math.ceil(a / b)` for naturals (exact for the integral JS numbers that
reach this division; JS float division is exact below `2^53`). -/
def ceilNat (a b : Nat) : Nat :=
  (a + b - 1) / b

/-- `totalPages = Math.max(1, Math.ceil((rowCount || preview.length || 1) / limit))`
(page.tsx line 80). -/
def totalPages (s : ClientState) : Nat :=
  max 1 (ceilNat (jsOrNat (jsOrNat s.rowCount s.preview.length) 1) s.limit)

/-- `currentPage = Math.floor(offset / limit) + 1` (page.tsx line 81). -/
def currentPage (s : ClientState) : Nat :=
  s.offset / s.limit + 1

/-- `disabled={paging || offset === 0}` on the Prev button (line 638). -/
def prevDisabled (s : ClientState) : Bool :=
  s.paging || s.offset == 0

/-- `disabled={paging || offset + limit >= (rowCount || preview.length)}`
on the Next button (line 645). -/
def nextDisabled (s : ClientState) : Bool :=
  s.paging || decide (jsOrNat s.rowCount s.preview.length ≤ s.offset + s.limit)

/-- `disabled={idx !== messages.length - 1}` on a preview turn's
"Show All (...) in Table" button (line 552). -/
def showAllDisabled (idx numMessages : Nat) : Bool :=
  idx != numMessages - 1

/-- Render condition of the Show All button: the turn is a preview turn with
`previewData` and a defined positive `totalCount` (lines 508 and 549). -/
def showAllButtonShown (m : ChatMsg) : Bool :=
  m.kind == some MsgKind.preview && m.previewData.isSome &&
    (match m.totalCount with
     | some t => decide (0 < t)
     | none => false)

/-! ### Transition functions (event handlers)

Each handler is a pure function of the pre-call state and the remote
response(s) it consumes; only successfully parsed responses are modelled
(a transport-level rejection only sets `error` in the `catch` arm and is
not needed by any claim). -/

/-- `fetchPage(newOffset, newLimit?, explicitSession?, codeOverride?)`
(page.tsx lines 383–420) applied to a successful `PageResponse`.

`cl` is the render closure at handler entry (the handler that contains the
`fetchPage` call), from which the free occurrences of `session`, `limit`,
`activeCode` and `rowCount` are read; `cur` is the threaded state the
`setX` calls apply to.  For a standalone call both coincide.
`codeOverride : Option (Option String)` distinguishes the JS three-state
`undefined` (`none`) from `null` (`some none`) and a string
(`some (some c)`).  The request-only locals `effectiveLimit` and
`codeToUse` do not touch client state and are omitted. -/
def fetchPage (cl cur : ClientState) (newOffset : Nat) (newLimit : Option Nat)
    (explicitSession : Option String) (codeOverride : Option (Option String))
    (resp : PageResponse) : ClientState :=
  let activeSession := orStr explicitSession cl.session
  if truthyStr activeSession then
    let rows := resp.rows.getD []
    let cur1 := { cur with
      error := none
      rawPreview := rows
      preview := stripRowId rows
      rowCount := natOr resp.total cl.rowCount
      offset := newOffset }
    let cur2 : ClientState :=
      match codeOverride with
      | some c => { cur1 with activeCode := strOrNull c }
      | none => cur1
    let cur3 : ClientState :=
      match newLimit with
      | some l => { cur2 with limit := l }
      | none => cur2
    { cur3 with paging := false }
  else
    { cur with error := some "Load a dataset first" }

/-- `loadDataset` (page.tsx lines 233–260) applied to a successful
`LoadResponse`, with `pageResp` the response of the inner
`fetchPage(0, DEFAULT_PAGE_SIZE, data.session, null)` call. -/
def loadDataset (s : ClientState) (resp : LoadResponse) (pageResp : PageResponse) :
    ClientState :=
  let s1 := { s with
    loading := true
    error := none
    datasetId := strOrNull resp.dataset_id
    storageDatasetId :=
      if truthyStr resp.dataset_id then resp.dataset_id else s.storageDatasetId
    session := resp.session
    columns := stripColumns (resp.columns.getD [])
    rowCount := natOr0 resp.row_count
    rawPreview := resp.preview.getD []
    preview := stripRowId (resp.preview.getD [])
    code := "--"
    activeCode := none
    messages := []
    offset := 0
    limit := DEFAULT_PAGE_SIZE }
  let s2 : ClientState :=
    if truthyStr resp.session then
      fetchPage s s1 0 (some DEFAULT_PAGE_SIZE) resp.session (some none) pageResp
    else s1
  { s2 with loading := false }

/-- `openDataset(id)` (page.tsx lines 422–450) applied to a successful
`OpenResponse` (same shape as `LoadResponse`). -/
def openDataset (s : ClientState) (id : String) (resp : LoadResponse)
    (pageResp : PageResponse) : ClientState :=
  let s1 := { s with
    loading := true
    error := none
    datasetId := some (strOrD resp.dataset_id id)
    storageDatasetId :=
      if truthyStr resp.dataset_id then resp.dataset_id else s.storageDatasetId
    session := resp.session
    columns := stripColumns (resp.columns.getD [])
    rowCount := natOr0 resp.row_count
    rawPreview := resp.preview.getD []
    preview := stripRowId (resp.preview.getD [])
    code := "--"
    activeCode := none
    messages := []
    offset := 0
    limit := DEFAULT_PAGE_SIZE }
  let s2 : ClientState :=
    if truthyStr resp.session then
      fetchPage s s1 0 (some DEFAULT_PAGE_SIZE) resp.session (some none) pageResp
    else s1
  { s2 with loading := false }

/-- `runNLQ` (page.tsx lines 262–381) applied to a successful
`NLExprResponse`; `rand` models the `Math.random()` draw of
`getRandomHighlightColor` and `pageResp` the response of the inner
`fetchPage(0, limit, session, null)` call of the mutation branch. -/
def runNLQ (s : ClientState) (resp : NLExprResponse) (rand : Nat)
    (pageResp : PageResponse) : ClientState :=
  if truthyStr s.session then
    let s1 := { s with
      loading := true
      error := strOrNull resp.error
      code := strOrD resp.code "--"
      activeCode := strOrNull resp.code }
    let cells := resp.updated_cells.getD []
    let s2 : ClientState :=
      if 0 < cells.length then
        let operationColor := getRandomHighlightColor rand
        let sA := { s1 with
          lastUpdatedColumn :=
            match cells with
            | c :: _ => some c.column
            | [] => s1.lastUpdatedColumn
          updatedRowIds := mergeRowIds s1.updatedRowIds cells }
        let sB : ClientState :=
          if truthyStr s.session then
            fetchPage s sA 0 (some s.limit) s.session (some none) pageResp
          else sA
        let sC := { sB with
          highlightedCells := mergeMap sB.highlightedCells (opHighlights cells operationColor) }
        { sC with highlightStack := sC.highlightStack ++ [operationKeys cells] }
      else s1
    let totalCount := natOr0 resp.total_count
    let s3 := { s2 with filteredTotalCount := totalCount }
    let s4 := { s3 with
      messages := s3.messages ++
        [({ role := MsgRole.user, text := s.question, kind := some MsgKind.text } : ChatMsg)] }
    let s5 : ClientState :=
      if truthyStr resp.error then
        { s4 with
          messages := s4.messages ++
            [({ role := MsgRole.assistant, text := strOrD resp.error "",
                kind := some MsgKind.error } : ChatMsg)] }
      else if 0 < cells.length then
        { s4 with
          messages := s4.messages ++
            [({ role := MsgRole.assistant, text := strOrD resp.code "",
                kind := some MsgKind.update, updatedCount := some cells.length } : ChatMsg)]
          undoCount := natOr0 resp.undo_count }
      else
        { s4 with
          messages := s4.messages ++
            [({ role := MsgRole.assistant, text := strOrD resp.code "",
                kind := some MsgKind.preview,
                previewData := some ((stripRowId (resp.preview.getD [])).take 10),
                totalCount := some totalCount,
                activeCode := strOrNull resp.code } : ChatMsg)] }
    { s5 with loading := false }
  else
    { s with error := some "Load a dataset first" }

/-- `handleUndo` (page.tsx lines 148–218).  Returns the post-call state and
the number of network calls issued (`/dataset/undo`, plus the inner
`fetchPage` refresh on success).  `resp` is the undo response and
`pageResp` the response of the inner `fetchPage(0, limit, data.session, null)`. -/
def handleUndo (s : ClientState) (resp : UndoResponse) (pageResp : PageResponse) :
    ClientState × Nat :=
  if truthyStr s.datasetId && truthyStr s.session then
    let s0 := { s with loading := true, error := none }
    if resp.success then
      let s1 : ClientState :=
        if 0 < s.highlightStack.length then
          let lastOperationKeys := s.highlightStack.getLastD []
          let newStack := s.highlightStack.dropLast
          { s0 with
            highlightStack := newStack
            highlightedCells := lastOperationKeys.foldl mapDelete s.highlightedCells
            updatedRowIds := rebuildRowIds newStack }
        else s0
      let s2 := { s1 with
        session := some resp.session
        columns := stripColumns (resp.columns.getD [])
        rowCount := natOr0 resp.row_count
        rawPreview := resp.preview.getD []
        preview := stripRowId (resp.preview.getD [])
        undoCount := natOr0 resp.undo_count
        messages := s1.messages ++
          [({ role := MsgRole.assistant,
              text := strOrD resp.message "Changes reverted successfully.",
              kind := some MsgKind.text } : ChatMsg)] }
      let s3 : ClientState :=
        if resp.session != "" then
          fetchPage s s2 0 (some s.limit) (some resp.session) (some none) pageResp
        else s2
      ({ s3 with loading := false }, if resp.session != "" then 2 else 1)
    else
      ({ s0 with loading := false, error := some (strOrD resp.message "Undo failed") }, 1)
  else
    ({ s with error := some "No dataset loaded" }, 0)

/-- `handleClearHighlights` (page.tsx lines 141–145). -/
def handleClearHighlights (s : ClientState) : ClientState :=
  { s with highlightedCells := [], updatedRowIds := [], highlightStack := [] }

/-- `handleShowAllInTable(code)` (page.tsx lines 117–122): the explicit
"apply to main view" action of a preview turn. -/
def handleShowAllInTable (s : ClientState) (code : Option String)
    (pageResp : PageResponse) : ClientState :=
  if truthyStr s.session then
    let s1 := { s with activeCode := code }
    fetchPage s s1 0 (some s.limit) s.session (some code) pageResp
  else s

/-! ### The highlight-ownership invariant -/

/-- The key set of the Highlight Map is exactly the union of the key lists
of the Operations on the Undo Stack. -/
def highlightInvariant (s : ClientState) : Prop :=
  ∀ k, k ∈ mapKeys s.highlightedCells ↔ ∃ op ∈ s.highlightStack, k ∈ op

/-- The displayed window is always the `__row_id`-stripped view of the raw
window kept for highlight resolution. -/
def strippedView (s : ClientState) : Prop :=
  s.preview = stripRowId s.rawPreview

/-! ## Lemmas about the JS map and set model -/

theorem mem_mapKeys_mapSet (m : List (String × String)) (k v k' : String) :
    k' ∈ mapKeys (mapSet m k v) ↔ k' ∈ mapKeys m ∨ k' = k := by
  induction m with
  | nil => simp [mapSet, mapKeys]
  | cons p rest ih =>
    by_cases h : p.1 = k
    · subst h
      simp [mapSet, mapKeys]
      tauto
    · simp [mapSet, h, mapKeys] at *
      tauto

theorem mem_mapKeys_mapDelete (m : List (String × String)) (k k' : String) :
    k' ∈ mapKeys (mapDelete m k) ↔ k' ∈ mapKeys m ∧ k' ≠ k := by
  simp only [mapDelete, mapKeys, List.mem_map, List.mem_filter, bne_iff_ne, ne_eq]
  constructor
  · rintro ⟨p, ⟨hp, hne⟩, rfl⟩
    exact ⟨⟨p, hp, rfl⟩, hne⟩
  · rintro ⟨⟨p, hp, rfl⟩, hne⟩
    exact ⟨p, ⟨hp, hne⟩, rfl⟩

theorem mem_mapKeys_foldl_mapDelete (ks : List String) (m : List (String × String))
    (k' : String) :
    k' ∈ mapKeys (ks.foldl mapDelete m) ↔ k' ∈ mapKeys m ∧ k' ∉ ks := by
  induction ks generalizing m with
  | nil => simp
  | cons a t ih =>
    rw [List.foldl_cons, ih, mem_mapKeys_mapDelete]
    simp only [List.mem_cons]
    tauto

theorem mem_mapKeys_mergeMap (m news : List (String × String)) (k' : String) :
    k' ∈ mapKeys (mergeMap m news) ↔ k' ∈ mapKeys m ∨ k' ∈ mapKeys news := by
  induction news generalizing m with
  | nil => simp [mergeMap, mapKeys]
  | cons kv t ih =>
    show k' ∈ mapKeys (mergeMap (mapSet m kv.1 kv.2) t) ↔ _
    rw [ih, mem_mapKeys_mapSet]
    simp only [mapKeys, List.map_cons, List.mem_cons]
    tauto

theorem mem_mapKeys_foldl_mapSet (cells : List UpdatedCell) (color : String)
    (m0 : List (String × String)) (k' : String) :
    k' ∈ mapKeys (cells.foldl (fun m c => mapSet m (cellKey c) color) m0) ↔
      k' ∈ mapKeys m0 ∨ k' ∈ cells.map cellKey := by
  induction cells generalizing m0 with
  | nil => simp
  | cons c t ih =>
    rw [List.foldl_cons, ih, mem_mapKeys_mapSet]
    simp only [List.map_cons, List.mem_cons]
    tauto

theorem mem_mapKeys_opHighlights (cells : List UpdatedCell) (color : String)
    (k' : String) :
    k' ∈ mapKeys (opHighlights cells color) ↔ k' ∈ operationKeys cells := by
  rw [opHighlights, mem_mapKeys_foldl_mapSet]
  simp [operationKeys, mapKeys]

/-! ## Lemmas about `fetchPage`

`fetchPage` only writes the window fields (`rawPreview`, `preview`,
`rowCount`, `offset`, `activeCode`, `limit`), the busy flag and the error
notice; everything else of the threaded state passes through. -/

theorem fetchPage_frame (cl cur : ClientState) (newOffset : Nat) (newLimit : Option Nat)
    (explicitSession : Option String) (codeOverride : Option (Option String))
    (resp : PageResponse) :
    (fetchPage cl cur newOffset newLimit explicitSession codeOverride resp).highlightedCells
        = cur.highlightedCells
    ∧ (fetchPage cl cur newOffset newLimit explicitSession codeOverride resp).highlightStack
        = cur.highlightStack
    ∧ (fetchPage cl cur newOffset newLimit explicitSession codeOverride resp).updatedRowIds
        = cur.updatedRowIds
    ∧ (fetchPage cl cur newOffset newLimit explicitSession codeOverride resp).undoCount
        = cur.undoCount
    ∧ (fetchPage cl cur newOffset newLimit explicitSession codeOverride resp).messages
        = cur.messages
    ∧ (fetchPage cl cur newOffset newLimit explicitSession codeOverride resp).session
        = cur.session
    ∧ (fetchPage cl cur newOffset newLimit explicitSession codeOverride resp).columns
        = cur.columns
    ∧ (fetchPage cl cur newOffset newLimit explicitSession codeOverride resp).datasetId
        = cur.datasetId
    ∧ (fetchPage cl cur newOffset newLimit explicitSession codeOverride resp).filteredTotalCount
        = cur.filteredTotalCount
    ∧ (fetchPage cl cur newOffset newLimit explicitSession codeOverride resp).loading
        = cur.loading := by
  rcases codeOverride with _ | c <;> rcases newLimit with _ | l <;>
    by_cases h : truthyStr (orStr explicitSession cl.session) <;>
      simp [fetchPage, h]

theorem fetchPage_window (cl cur : ClientState) (newOffset : Nat) (newLimit : Option Nat)
    (explicitSession : Option String) (codeOverride : Option (Option String))
    (resp : PageResponse)
    (h : truthyStr (orStr explicitSession cl.session) = true) :
    (fetchPage cl cur newOffset newLimit explicitSession codeOverride resp).rawPreview
        = resp.rows.getD []
    ∧ (fetchPage cl cur newOffset newLimit explicitSession codeOverride resp).preview
        = stripRowId (resp.rows.getD [])
    ∧ (fetchPage cl cur newOffset newLimit explicitSession codeOverride resp).rowCount
        = natOr resp.total cl.rowCount
    ∧ (fetchPage cl cur newOffset newLimit explicitSession codeOverride resp).offset
        = newOffset
    ∧ (fetchPage cl cur newOffset newLimit explicitSession codeOverride resp).activeCode
        = (match codeOverride with
           | some c => strOrNull c
           | none => cur.activeCode)
    ∧ (fetchPage cl cur newOffset newLimit explicitSession codeOverride resp).limit
        = newLimit.getD cur.limit := by
  rcases codeOverride with _ | c <;> rcases newLimit with _ | l <;>
    simp [fetchPage, h]

/-! ## Concrete fixtures used by witnesses and counterexamples -/

/-- A state with an established session, as reached after a successful load
of a 1000-row dataset (Scenario A of the spec). -/
def loadedState : ClientState :=
  { initialState with
    datasetId := some "ds1"
    session := some "sess1"
    columns := [("age", "Int64")]
    rowCount := 1000 }

/-! ## C5 — pagination derivation and navigation affordances -/

/-- C5: in a quiescent state (`paging = false`) with a positive total and
page size, `totalPages = max(1, ceil(rowCount / limit))` (with the ceiling
characterized by `rowCount ≤ totalPages * limit < rowCount + limit`),
`currentPage = floor(offset / limit) + 1`, the Prev button is disabled iff
`offset = 0`, and the Next button is disabled iff
`offset + limit ≥ rowCount`. -/
theorem pagination_derivation (s : ClientState)
    (hlim : 0 < s.limit) (htot : 0 < s.rowCount) (hpag : s.paging = false) :
    totalPages s = max 1 ((s.rowCount + s.limit - 1) / s.limit)
    ∧ s.rowCount ≤ totalPages s * s.limit
    ∧ (totalPages s - 1) * s.limit < s.rowCount
    ∧ currentPage s = s.offset / s.limit + 1
    ∧ (prevDisabled s = true ↔ s.offset = 0)
    ∧ (nextDisabled s = true ↔ s.rowCount ≤ s.offset + s.limit) := by
  have hrc : s.rowCount ≠ 0 := htot.ne'
  have hceil : ceilNat s.rowCount s.limit = s.rowCount ⌈/⌉ s.limit := rfl
  have hj : jsOrNat (jsOrNat s.rowCount s.preview.length) 1 = s.rowCount := by
    simp [jsOrNat, hrc]
  have hle : s.rowCount ≤ s.limit * (s.rowCount ⌈/⌉ s.limit) := by
    have := le_smul_ceilDiv (b := s.rowCount) hlim
    simpa [smul_eq_mul] using this
  have hd1 : 1 ≤ s.rowCount ⌈/⌉ s.limit := by
    by_contra hcon
    push_neg at hcon
    interval_cases h : s.rowCount ⌈/⌉ s.limit
    omega
  have htp : totalPages s = s.rowCount ⌈/⌉ s.limit := by
    rw [totalPages, hj, hceil]
    exact max_eq_right hd1
  refine ⟨?_, ?_, ?_, rfl, ?_, ?_⟩
  · rw [totalPages, hj]
    rfl
  · rw [htp, Nat.mul_comm]
    exact hle
  · have hnot : ¬ (s.rowCount ≤ s.limit * (s.rowCount ⌈/⌉ s.limit - 1)) := by
      intro hcon
      have := (ceilDiv_le_iff_le_mul hlim).mpr hcon
      omega
    rw [htp, Nat.mul_comm]
    exact not_le.mp hnot
  · rw [prevDisabled, hpag]
    simp
  · rw [nextDisabled, hpag, jsOrNat, if_neg hrc]
    simp

/-- Witness for C5 at Scenario A of the spec: `rowCount = 1000`,
`limit = 500`, `offset = 0` gives 2 pages, current page 1, Prev disabled and
Next enabled. -/
theorem pagination_derivation_witness :
    (0 < loadedState.limit ∧ 0 < loadedState.rowCount ∧ loadedState.paging = false)
    ∧ (totalPages loadedState
          = max 1 ((loadedState.rowCount + loadedState.limit - 1) / loadedState.limit)
        ∧ loadedState.rowCount ≤ totalPages loadedState * loadedState.limit
        ∧ (totalPages loadedState - 1) * loadedState.limit < loadedState.rowCount
        ∧ currentPage loadedState = loadedState.offset / loadedState.limit + 1
        ∧ (prevDisabled loadedState = true ↔ loadedState.offset = 0)
        ∧ (nextDisabled loadedState = true ↔ loadedState.rowCount
              ≤ loadedState.offset + loadedState.limit))
    ∧ (totalPages loadedState = 2 ∧ currentPage loadedState = 1
        ∧ prevDisabled loadedState = true ∧ nextDisabled loadedState = false) :=
  ⟨⟨by decide, by decide, by decide⟩,
   pagination_derivation loadedState (by decide) (by decide) (by decide),
   by decide, by decide, by decide, by decide⟩

/-! ## C8 — undo with no established session -/

/-- C8: when `datasetId` or `session` is null, `handleUndo` immediately sets
the error notice "No dataset loaded", issues zero network calls and leaves
every other state field unchanged. -/
theorem undo_without_session (s : ClientState) (resp : UndoResponse)
    (pageResp : PageResponse)
    (h : s.datasetId = none ∨ s.session = none) :
    handleUndo s resp pageResp = ({ s with error := some "No dataset loaded" }, 0) := by
  rcases h with h | h <;> rw [handleUndo] <;> simp [h, truthyStr]

/-- Witness for C8: undo invoked on the initial (nothing-loaded) state. -/
theorem undo_without_session_witness :
    (initialState.datasetId = none ∨ initialState.session = none)
    ∧ handleUndo initialState
        { success := true, dataset_id := "d", session := "s", columns := none,
          row_count := none, preview := none, message := none, undo_count := none }
        { rows := none, total := none }
      = ({ initialState with error := some "No dataset loaded" }, 0) :=
  ⟨Or.inl rfl,
   undo_without_session initialState
     { success := true, dataset_id := "d", session := "s", columns := none,
       row_count := none, preview := none, message := none, undo_count := none }
     { rows := none, total := none } (Or.inl rfl)⟩

/-! ## C9 — Show All affordance only on the last transcript turn -/

/-- C9: for a preview turn (with rendered Show All button, i.e. positive
total count) at position `idx` of the append-only transcript, the button is
enabled iff the turn is the most recently appended one; appending any
further turn disables it permanently. -/
theorem show_all_enabled_iff_last (ms extra : List ChatMsg) (idx : Nat) (m : ChatMsg)
    (hidx : idx < ms.length) (_hm : ms.get ⟨idx, hidx⟩ = m)
    (_hshown : showAllButtonShown m = true) (hextra : extra ≠ []) :
    (showAllDisabled idx ms.length = false ↔ idx = ms.length - 1)
    ∧ showAllDisabled idx (ms ++ extra).length = true := by
  have hpos : 0 < extra.length := List.length_pos.mpr hextra
  constructor
  · simp [showAllDisabled]
  · simp only [showAllDisabled, List.length_append, bne_iff_ne, ne_eq,
      decide_eq_true_eq]
    omega

/-- Witness for C9: a transcript holding one preview turn with
`totalCount = 37` (Scenario D), then one appended turn. -/
theorem show_all_enabled_iff_last_witness :
    ([({ role := MsgRole.assistant, text := "pl.col(\"age\") > 30",
         kind := some MsgKind.preview, previewData := some [],
         totalCount := some 37 } : ChatMsg)].get ⟨0, by decide⟩
        = ({ role := MsgRole.assistant, text := "pl.col(\"age\") > 30",
             kind := some MsgKind.preview, previewData := some [],
             totalCount := some 37 } : ChatMsg))
    ∧ showAllButtonShown
        ({ role := MsgRole.assistant, text := "pl.col(\"age\") > 30",
           kind := some MsgKind.preview, previewData := some [],
           totalCount := some 37 } : ChatMsg) = true
    ∧ ((showAllDisabled 0 1 = false ↔ (0 : Nat) = 1 - 1)
        ∧ showAllDisabled 0
            ([({ role := MsgRole.assistant, text := "pl.col(\"age\") > 30",
                 kind := some MsgKind.preview, previewData := some [],
                 totalCount := some 37 } : ChatMsg)] ++
             [({ role := MsgRole.user, text := "next question",
                 kind := some MsgKind.text } : ChatMsg)]).length = true) :=
  ⟨rfl, by decide,
   show_all_enabled_iff_last
     [{ role := MsgRole.assistant, text := "pl.col(\"age\") > 30",
        kind := some MsgKind.preview, previewData := some [], totalCount := some 37 }]
     [{ role := MsgRole.user, text := "next question", kind := some MsgKind.text }]
     0 _ (by decide) rfl (by decide) (by decide)⟩

/-! ## C2 — what a fresh load/open actually clears -/

/-- C2 (amended): a successful `loadDataset` or `openDataset` empties the
Chat Transcript, but leaves the Highlight Map, the Undo Stack, the
updated-row bookkeeping and the undo counter exactly as they were. -/
theorem load_open_clear_transcript_only (s : ClientState) (resp : LoadResponse)
    (pageResp : PageResponse) (id : String) :
    (loadDataset s resp pageResp).messages = []
    ∧ (loadDataset s resp pageResp).highlightedCells = s.highlightedCells
    ∧ (loadDataset s resp pageResp).highlightStack = s.highlightStack
    ∧ (loadDataset s resp pageResp).updatedRowIds = s.updatedRowIds
    ∧ (loadDataset s resp pageResp).undoCount = s.undoCount
    ∧ (openDataset s id resp pageResp).messages = []
    ∧ (openDataset s id resp pageResp).highlightedCells = s.highlightedCells
    ∧ (openDataset s id resp pageResp).highlightStack = s.highlightStack
    ∧ (openDataset s id resp pageResp).updatedRowIds = s.updatedRowIds
    ∧ (openDataset s id resp pageResp).undoCount = s.undoCount := by
  unfold loadDataset openDataset
  by_cases h : truthyStr resp.session <;>
    simp [h, fetchPage_frame]

/-- A state holding one already-applied mutation: one stacked operation, its
highlight, its updated row, one transcript turn and one undo level. -/
def mutatedState : ClientState :=
  { loadedState with
    highlightedCells := [("5-age", "rgba(255, 182, 193, 0.6)")]
    highlightStack := [["5-age"]]
    updatedRowIds := [5]
    undoCount := 1
    messages := [{ role := MsgRole.user, text := "set age to 31 where age is 30",
                   kind := some MsgKind.text }] }

/-- A typical successful load response. -/
def loadResp1 : LoadResponse :=
  { dataset_id := some "ds1", session := some "sess2",
    columns := some [("__row_id", "Int64"), ("age", "Int64")],
    row_count := some 1000,
    preview := some [[("__row_id", CellValue.num 0), ("age", CellValue.num 30)]] }

/-- A typical successful page response. -/
def pageResp1 : PageResponse :=
  { rows := some [[("__row_id", CellValue.num 0), ("age", CellValue.num 30)]],
    total := some 1000 }

/-- Counterexample to C2 as stated: loading a fresh dataset over
`mutatedState` empties the transcript but leaves the Highlight Map, the
Undo Stack and the updated-row bookkeeping non-empty. -/
theorem load_retains_highlights_counterexample :
    (loadDataset mutatedState loadResp1 pageResp1).messages = []
    ∧ (loadDataset mutatedState loadResp1 pageResp1).highlightedCells ≠ []
    ∧ (loadDataset mutatedState loadResp1 pageResp1).highlightStack ≠ []
    ∧ (loadDataset mutatedState loadResp1 pageResp1).updatedRowIds ≠ [] := by
  decide

/-! ## C10 — exact `__row_id` stripping and raw-row retention -/

/-- C10: `stripRowId` removes from every row exactly the entries keyed
`__row_id` — the stripped row is a sublist of the original (all other keys
and values unchanged, in the same order) whose members are exactly the
non-`__row_id` entries — and `stripColumns` does the same on the schema;
on a successful page fetch the unstripped rows are retained in `rawPreview`
while `preview` holds their stripped view. -/
theorem strip_row_id_exact (rows : List Row) (cols : List (String × String))
    (cl cur : ClientState) (newOffset : Nat) (newLimit : Option Nat)
    (explicitSession : Option String) (codeOverride : Option (Option String))
    (resp : PageResponse)
    (hs : truthyStr (orStr explicitSession cl.session) = true) :
    List.Forall₂
      (fun r r' => List.Sublist r' r ∧ ∀ kv, kv ∈ r' ↔ kv ∈ r ∧ kv.1 ≠ "__row_id")
      rows (stripRowId rows)
    ∧ List.Sublist (stripColumns cols) cols
    ∧ (∀ kv, kv ∈ stripColumns cols ↔ kv ∈ cols ∧ kv.1 ≠ "__row_id")
    ∧ (fetchPage cl cur newOffset newLimit explicitSession codeOverride resp).rawPreview
        = resp.rows.getD []
    ∧ (fetchPage cl cur newOffset newLimit explicitSession codeOverride resp).preview
        = stripRowId
            ((fetchPage cl cur newOffset newLimit explicitSession codeOverride resp).rawPreview) := by
  refine ⟨?_, ?_, ?_, ?_, ?_⟩
  · rw [stripRowId, List.forall₂_map_right_iff]
    rw [List.forall₂_same]
    intro r _
    constructor
    · exact List.filter_sublist r
    · intro kv
      simp [List.mem_filter]
  · exact List.filter_sublist cols
  · intro kv
    simp [stripColumns, List.mem_filter]
  · exact (fetchPage_window cl cur newOffset newLimit explicitSession codeOverride
      resp hs).1
  · have h := fetchPage_window cl cur newOffset newLimit explicitSession codeOverride
      resp hs
    rw [h.1, h.2.1]

/-- Witness for C10 on a concrete two-column row slice. -/
theorem strip_row_id_exact_witness :
    truthyStr (orStr (some "sess1") loadedState.session) = true
    ∧ (List.Forall₂
        (fun r r' =>
          List.Sublist r' r ∧ ∀ kv, kv ∈ r' ↔ kv ∈ r ∧ kv.1 ≠ "__row_id")
        [[("__row_id", CellValue.num 0), ("age", CellValue.num 30)]]
        (stripRowId [[("__row_id", CellValue.num 0), ("age", CellValue.num 30)]])
      ∧ List.Sublist (stripColumns [("__row_id", "Int64"), ("age", "Int64")])
          [("__row_id", "Int64"), ("age", "Int64")]
      ∧ (∀ kv, kv ∈ stripColumns [("__row_id", "Int64"), ("age", "Int64")] ↔
          kv ∈ [("__row_id", "Int64"), ("age", "Int64")] ∧ kv.1 ≠ "__row_id")
      ∧ (fetchPage loadedState loadedState 0 none (some "sess1") none pageResp1).rawPreview
          = pageResp1.rows.getD []
      ∧ (fetchPage loadedState loadedState 0 none (some "sess1") none pageResp1).preview
          = stripRowId
              ((fetchPage loadedState loadedState 0 none (some "sess1") none
                pageResp1).rawPreview)) :=
  ⟨by decide,
   strip_row_id_exact [[("__row_id", CellValue.num 0), ("age", CellValue.num 30)]]
     [("__row_id", "Int64"), ("age", "Int64")] loadedState loadedState 0 none
     (some "sess1") none pageResp1 (by decide)⟩

/-! ## C7 — where `fetchPage` takes the total row count from -/

/-- A loaded state whose locally held total is 5 rows. -/
def smallState : ClientState :=
  { loadedState with rowCount := 5 }

/-- A page response with the `total` field absent. -/
def pageRespNoTotal : PageResponse :=
  { rows := some [[("__row_id", CellValue.num 0), ("age", CellValue.num 30)]],
    total := none }

/-- Counterexample to C7 as stated: on a response with an absent `total`,
`fetchPage` keeps the prior local count (5) instead of defaulting to zero
(`setRowCount(data.total || rowCount)`). -/
theorem fetchPage_total_fallback_counterexample :
    pageRespNoTotal.total = none
    ∧ (fetchPage smallState smallState 0 none none none pageRespNoTotal).rowCount = 5
    ∧ (fetchPage smallState smallState 0 none none none pageRespNoTotal).rowCount ≠ 0 := by
  decide

/-- C7 (amended): on a successful page response the row slice replaces the
window wholesale, and the total is taken from the response whenever the
response carries a nonzero `total`; an absent (or zero) `total` falls back
to the closure's prior `rowCount` rather than to zero. -/
theorem fetchPage_wholesale_replacement (cl cur : ClientState) (newOffset : Nat)
    (newLimit : Option Nat) (explicitSession : Option String)
    (codeOverride : Option (Option String)) (resp : PageResponse)
    (hs : truthyStr (orStr explicitSession cl.session) = true) :
    (fetchPage cl cur newOffset newLimit explicitSession codeOverride resp).rawPreview
        = resp.rows.getD []
    ∧ (fetchPage cl cur newOffset newLimit explicitSession codeOverride resp).preview
        = stripRowId (resp.rows.getD [])
    ∧ (fetchPage cl cur newOffset newLimit explicitSession codeOverride resp).rowCount
        = natOr resp.total cl.rowCount
    ∧ (∀ t, resp.total = some t → 0 < t →
        (fetchPage cl cur newOffset newLimit explicitSession codeOverride resp).rowCount = t)
    ∧ (resp.total = none →
        (fetchPage cl cur newOffset newLimit explicitSession codeOverride resp).rowCount
          = cl.rowCount)
    ∧ (resp.total = some 0 →
        (fetchPage cl cur newOffset newLimit explicitSession codeOverride resp).rowCount
          = cl.rowCount) := by
  have h := fetchPage_window cl cur newOffset newLimit explicitSession codeOverride resp hs
  refine ⟨h.1, h.2.1, h.2.2.1, ?_, ?_, ?_⟩
  · intro t ht htpos
    rw [h.2.2.1, ht, natOr]
    simp [Nat.pos_iff_ne_zero.mp htpos]
  · intro ht
    rw [h.2.2.1, ht, natOr]
  · intro ht
    rw [h.2.2.1, ht, natOr]
    simp

/-- Witness for C7 on a response carrying `total = 1000`. -/
theorem fetchPage_wholesale_replacement_witness :
    truthyStr (orStr none loadedState.session) = true
    ∧ ((fetchPage loadedState loadedState 500 none none none pageResp1).rawPreview
          = pageResp1.rows.getD []
        ∧ (fetchPage loadedState loadedState 500 none none none pageResp1).preview
          = stripRowId (pageResp1.rows.getD [])
        ∧ (fetchPage loadedState loadedState 500 none none none pageResp1).rowCount
          = natOr pageResp1.total loadedState.rowCount
        ∧ (∀ t, pageResp1.total = some t → 0 < t →
            (fetchPage loadedState loadedState 500 none none none pageResp1).rowCount = t)
        ∧ (pageResp1.total = none →
            (fetchPage loadedState loadedState 500 none none none pageResp1).rowCount
              = loadedState.rowCount)
        ∧ (pageResp1.total = some 0 →
            (fetchPage loadedState loadedState 500 none none none pageResp1).rowCount
              = loadedState.rowCount)) :=
  ⟨by decide,
   fetchPage_wholesale_replacement loadedState loadedState 500 none none none pageResp1
     (by decide)⟩

/-! ## C4 — the frame effect of a preview response -/

/-- A preview response: generated code, a sample and a match count, no
updated cells and no error. -/
def previewResp : NLExprResponse :=
  { code := some "df.filter(pl.col(\"age\") > 30)"
    preview := some [[("__row_id", CellValue.num 0), ("age", CellValue.num 31)]]
    total_count := some 37
    updated_cells := none
    undo_count := none
    error := none }

/-- Counterexample to C4 as stated: `runNLQ` on a preview response
overwrites the overlay code with the response's generated code even though
the user never invoked "apply to main view" (`setActiveCode(data.code || null)`
runs unconditionally at line 278). -/
theorem preview_sets_active_code_counterexample :
    previewResp.updated_cells = none
    ∧ previewResp.error = none
    ∧ loadedState.activeCode = none
    ∧ (runNLQ loadedState previewResp 0 pageResp1).activeCode
        = some "df.filter(pl.col(\"age\") > 30)"
    ∧ (runNLQ loadedState previewResp 0 pageResp1).activeCode
        ≠ loadedState.activeCode := by
  decide

/-- C4 (amended): a preview response leaves the displayed window — offset,
limit, rows, raw rows and total count — untouched (no refetch happens), but
`runNLQ` itself already overwrites `activeCode` with the response's
generated code; the explicit `handleShowAllInTable` action sets the overlay
code and refetches at offset 0. -/
theorem preview_frame_effect (s : ClientState) (resp : NLExprResponse) (rand : Nat)
    (p p2 : PageResponse) (code : Option String)
    (hs : truthyStr s.session = true)
    (hnoup : resp.updated_cells.getD [] = []) :
    (runNLQ s resp rand p).offset = s.offset
    ∧ (runNLQ s resp rand p).limit = s.limit
    ∧ (runNLQ s resp rand p).preview = s.preview
    ∧ (runNLQ s resp rand p).rawPreview = s.rawPreview
    ∧ (runNLQ s resp rand p).rowCount = s.rowCount
    ∧ (runNLQ s resp rand p).activeCode = strOrNull resp.code
    ∧ (runNLQ s resp rand p).filteredTotalCount = natOr0 resp.total_count
    ∧ (handleShowAllInTable s code p2).activeCode = strOrNull code
    ∧ (handleShowAllInTable s code p2).offset = 0 := by
  have hself : truthyStr (orStr s.session s.session) = true := by
    simp [orStr, hs]
  have hshow := fetchPage_window s { s with activeCode := code } 0 (some s.limit)
    s.session (some code) p2 hself
  constructor
  on_goal 2 => constructor
  all_goals try
    simp only [runNLQ, hs, if_true, hnoup, List.length_nil, lt_self_iff_false,
      if_false]
  all_goals by_cases he : truthyStr resp.error <;>
    simp [he, handleShowAllInTable, hs, hshow.2.2.2.1, hshow.2.2.2.2.1]

/-- Witness for C4 at the concrete preview fixture. -/
theorem preview_frame_effect_witness :
    (truthyStr loadedState.session = true
      ∧ previewResp.updated_cells.getD [] = [])
    ∧ ((runNLQ loadedState previewResp 0 pageResp1).offset = loadedState.offset
        ∧ (runNLQ loadedState previewResp 0 pageResp1).limit = loadedState.limit
        ∧ (runNLQ loadedState previewResp 0 pageResp1).preview = loadedState.preview
        ∧ (runNLQ loadedState previewResp 0 pageResp1).rawPreview = loadedState.rawPreview
        ∧ (runNLQ loadedState previewResp 0 pageResp1).rowCount = loadedState.rowCount
        ∧ (runNLQ loadedState previewResp 0 pageResp1).activeCode = strOrNull previewResp.code
        ∧ (runNLQ loadedState previewResp 0 pageResp1).filteredTotalCount
            = natOr0 previewResp.total_count
        ∧ (handleShowAllInTable loadedState previewResp.code pageResp1).activeCode
            = strOrNull previewResp.code
        ∧ (handleShowAllInTable loadedState previewResp.code pageResp1).offset = 0) :=
  ⟨⟨by decide, by decide⟩,
   preview_frame_effect loadedState previewResp 0 pageResp1 pageResp1 previewResp.code
     (by decide) (by decide)⟩

/-! ## C6 — the frame effect of an error response -/

/-- A loaded state with an active overlay filter and a remembered filtered
total. -/
def filteredState : ClientState :=
  { loadedState with
    activeCode := some "df.filter(pl.col(\"age\") > 30)"
    filteredTotalCount := 37 }

/-- An error response of `/nlq/expr`. -/
def errorResp : NLExprResponse :=
  { code := none, preview := none, total_count := none, updated_cells := none,
    undo_count := none, error := some "Could not parse question" }

/-- Counterexample to C6 as stated: handling an error response resets the
Window's overlay code (to the response's code, here null) and its filtered
total (to zero), so the Window does not keep all its pre-call values. -/
theorem error_clobbers_overlay_counterexample :
    errorResp.error = some "Could not parse question"
    ∧ filteredState.activeCode = some "df.filter(pl.col(\"age\") > 30)"
    ∧ (runNLQ filteredState errorResp 0 pageResp1).activeCode = none
    ∧ (runNLQ filteredState errorResp 0 pageResp1).activeCode ≠ filteredState.activeCode
    ∧ filteredState.filteredTotalCount = 37
    ∧ (runNLQ filteredState errorResp 0 pageResp1).filteredTotalCount = 0 := by
  decide

/-- C6 (amended): an error response (with no updated cells) is surfaced as
the error notice and as an error turn appended after the user turn, and the
Session, window rows/offset/limit/total and Highlight Map keep their
pre-call values — but `activeCode` is overwritten with the response's code
(null when absent/empty) and `filteredTotalCount` with its total count
(zero when absent). -/
theorem error_frame_effect (s : ClientState) (resp : NLExprResponse) (rand : Nat)
    (p : PageResponse)
    (hs : truthyStr s.session = true)
    (herr : truthyStr resp.error = true)
    (hnoup : resp.updated_cells.getD [] = []) :
    (runNLQ s resp rand p).error = strOrNull resp.error
    ∧ (runNLQ s resp rand p).messages
        = s.messages ++
          [{ role := MsgRole.user, text := s.question, kind := some MsgKind.text },
           { role := MsgRole.assistant, text := strOrD resp.error "",
             kind := some MsgKind.error }]
    ∧ (runNLQ s resp rand p).session = s.session
    ∧ (runNLQ s resp rand p).columns = s.columns
    ∧ (runNLQ s resp rand p).rowCount = s.rowCount
    ∧ (runNLQ s resp rand p).offset = s.offset
    ∧ (runNLQ s resp rand p).limit = s.limit
    ∧ (runNLQ s resp rand p).preview = s.preview
    ∧ (runNLQ s resp rand p).rawPreview = s.rawPreview
    ∧ (runNLQ s resp rand p).highlightedCells = s.highlightedCells
    ∧ (runNLQ s resp rand p).highlightStack = s.highlightStack
    ∧ (runNLQ s resp rand p).updatedRowIds = s.updatedRowIds
    ∧ (runNLQ s resp rand p).undoCount = s.undoCount
    ∧ (runNLQ s resp rand p).activeCode = strOrNull resp.code
    ∧ (runNLQ s resp rand p).filteredTotalCount = natOr0 resp.total_count := by
  simp [runNLQ, hs, hnoup, herr]

/-- Witness for C6 at the concrete error fixture. -/
theorem error_frame_effect_witness :
    (truthyStr filteredState.session = true
      ∧ truthyStr errorResp.error = true
      ∧ errorResp.updated_cells.getD [] = [])
    ∧ ((runNLQ filteredState errorResp 0 pageResp1).error = strOrNull errorResp.error
        ∧ (runNLQ filteredState errorResp 0 pageResp1).messages
            = filteredState.messages ++
              [{ role := MsgRole.user, text := filteredState.question,
                 kind := some MsgKind.text },
               { role := MsgRole.assistant, text := strOrD errorResp.error "",
                 kind := some MsgKind.error }]
        ∧ (runNLQ filteredState errorResp 0 pageResp1).session = filteredState.session
        ∧ (runNLQ filteredState errorResp 0 pageResp1).columns = filteredState.columns
        ∧ (runNLQ filteredState errorResp 0 pageResp1).rowCount = filteredState.rowCount
        ∧ (runNLQ filteredState errorResp 0 pageResp1).offset = filteredState.offset
        ∧ (runNLQ filteredState errorResp 0 pageResp1).limit = filteredState.limit
        ∧ (runNLQ filteredState errorResp 0 pageResp1).preview = filteredState.preview
        ∧ (runNLQ filteredState errorResp 0 pageResp1).rawPreview
            = filteredState.rawPreview
        ∧ (runNLQ filteredState errorResp 0 pageResp1).highlightedCells
            = filteredState.highlightedCells
        ∧ (runNLQ filteredState errorResp 0 pageResp1).highlightStack
            = filteredState.highlightStack
        ∧ (runNLQ filteredState errorResp 0 pageResp1).updatedRowIds
            = filteredState.updatedRowIds
        ∧ (runNLQ filteredState errorResp 0 pageResp1).undoCount
            = filteredState.undoCount
        ∧ (runNLQ filteredState errorResp 0 pageResp1).activeCode
            = strOrNull errorResp.code
        ∧ (runNLQ filteredState errorResp 0 pageResp1).filteredTotalCount
            = natOr0 errorResp.total_count) :=
  ⟨⟨by decide, by decide, by decide⟩,
   error_frame_effect filteredState errorResp 0 pageResp1 (by decide) (by decide)
     (by decide)⟩

/-! ## Shared characterizations of the highlight bookkeeping -/

theorem dropLast_append_getLastD (l : List (List String)) (d : List String)
    (h : l ≠ []) : l.dropLast ++ [l.getLastD d] = l := by
  cases l with
  | nil => exact absurd rfl h
  | cons a t =>
    rw [List.getLastD_cons, ← List.getLast_eq_getLastD]
    exact List.dropLast_append_getLast h

/-- The invariant only looks at the two highlight fields. -/
theorem highlightInvariant_of_eq {s t : ClientState}
    (h1 : t.highlightedCells = s.highlightedCells)
    (h2 : t.highlightStack = s.highlightStack)
    (h : highlightInvariant s) : highlightInvariant t := by
  intro k
  rw [highlightInvariant] at h
  rw [h1, h2]
  exact h k

/-- On a successful undo over a non-empty stack, `handleUndo` replaces the
stack by its `dropLast` and folds `mapDelete` of the popped keys over the
Highlight Map, independently of the inner page refetch. -/
theorem handleUndo_highlight_fields (s : ClientState) (resp : UndoResponse)
    (p : PageResponse)
    (hd : truthyStr s.datasetId = true) (hs : truthyStr s.session = true)
    (hok : resp.success = true) (hlen : 0 < s.highlightStack.length) :
    (handleUndo s resp p).1.highlightStack = s.highlightStack.dropLast
    ∧ (handleUndo s resp p).1.highlightedCells
        = (s.highlightStack.getLastD []).foldl mapDelete s.highlightedCells := by
  unfold handleUndo
  by_cases hb : resp.session = "" <;>
    simp [hd, hs, hok, hlen, hb, fetchPage_frame]

/-- With the session guard failing or the undo reported unsuccessful,
`handleUndo` leaves the highlight fields untouched. -/
theorem handleUndo_highlight_frame (s : ClientState) (resp : UndoResponse)
    (p : PageResponse)
    (h : (truthyStr s.datasetId && truthyStr s.session) = false ∨ resp.success = false
        ∨ s.highlightStack = []) :
    (handleUndo s resp p).1.highlightStack = s.highlightStack
    ∧ (handleUndo s resp p).1.highlightedCells = s.highlightedCells := by
  unfold handleUndo
  rcases h with h | h | h
  · simp [h]
  · by_cases hg : (truthyStr s.datasetId && truthyStr s.session) = true <;>
      simp [hg, h]
  · have hlen : ¬ 0 < s.highlightStack.length := by simp [h]
    by_cases hg : (truthyStr s.datasetId && truthyStr s.session) = true <;>
      by_cases hok : resp.success <;>
        by_cases hb : resp.session = "" <;>
          simp [hg, hok, hb, hlen, fetchPage_frame]

/-- Highlight fields of `runNLQ` under an established session: unchanged on
a preview or error response, merged-and-pushed on a mutation response. -/
theorem runNLQ_highlight_fields (s : ClientState) (resp : NLExprResponse)
    (rand : Nat) (p : PageResponse) (hs : truthyStr s.session = true) :
    ((resp.updated_cells.getD []).length = 0 →
      (runNLQ s resp rand p).highlightedCells = s.highlightedCells
      ∧ (runNLQ s resp rand p).highlightStack = s.highlightStack)
    ∧ (0 < (resp.updated_cells.getD []).length →
      (runNLQ s resp rand p).highlightedCells
        = mergeMap s.highlightedCells
            (opHighlights (resp.updated_cells.getD []) (getRandomHighlightColor rand))
      ∧ (runNLQ s resp rand p).highlightStack
        = s.highlightStack ++ [operationKeys (resp.updated_cells.getD [])]) := by
  constructor
  · intro h0
    by_cases he : truthyStr resp.error <;>
      simp [runNLQ, hs, h0, he, fetchPage_frame]
  · intro hpos
    by_cases he : truthyStr resp.error <;>
      simp [runNLQ, hs, hpos, he, fetchPage_frame]

/-! ## C3 — a successful undo pops exactly the last operation -/

/-- C3: after `handleUndo` receives `success = true` on a state with a
non-empty Undo Stack, the stack is its previous value minus the most
recently pushed operation (LIFO, depth exactly one less), and the Highlight
Map's key set loses exactly the popped operation's keys and no others
(every surviving entry keeps its value and position). -/
theorem undo_pops_exactly_last_operation (s : ClientState) (resp : UndoResponse)
    (p : PageResponse)
    (hd : truthyStr s.datasetId = true) (hs : truthyStr s.session = true)
    (hne : s.highlightStack ≠ []) (hok : resp.success = true) :
    (handleUndo s resp p).1.highlightStack = s.highlightStack.dropLast
    ∧ (handleUndo s resp p).1.highlightStack.length + 1 = s.highlightStack.length
    ∧ (∀ k, k ∈ mapKeys (handleUndo s resp p).1.highlightedCells ↔
        k ∈ mapKeys s.highlightedCells ∧ k ∉ s.highlightStack.getLastD []) := by
  have hlen : 0 < s.highlightStack.length := List.length_pos.mpr hne
  obtain ⟨hstack, hcells⟩ := handleUndo_highlight_fields s resp p hd hs hok hlen
  refine ⟨hstack, ?_, ?_⟩
  · rw [hstack, List.length_dropLast]
    omega
  · intro k
    rw [hcells, mem_mapKeys_foldl_mapDelete]

/-- A successful undo response for the single-operation fixture. -/
def undoRespOk : UndoResponse :=
  { success := true, dataset_id := "ds1", session := "sess3",
    columns := some [("__row_id", "Int64"), ("age", "Int64")],
    row_count := some 1000,
    preview := some [[("__row_id", CellValue.num 0), ("age", CellValue.num 30)]],
    message := some "Changes reverted successfully.", undo_count := some 0 }

/-- Witness for C3: undoing the single stacked operation of `mutatedState`
(Scenario C: depth 1 to depth 0) empties the stack and removes the popped
key `5-age` from the Highlight Map. -/
theorem undo_pops_exactly_last_operation_witness :
    (truthyStr mutatedState.datasetId = true
      ∧ truthyStr mutatedState.session = true
      ∧ mutatedState.highlightStack ≠ []
      ∧ undoRespOk.success = true)
    ∧ (handleUndo mutatedState undoRespOk pageResp1).1.highlightStack
        = mutatedState.highlightStack.dropLast
    ∧ (handleUndo mutatedState undoRespOk pageResp1).1.highlightStack.length + 1
        = mutatedState.highlightStack.length
    ∧ ("5-age" ∈ mapKeys (handleUndo mutatedState undoRespOk pageResp1).1.highlightedCells ↔
        "5-age" ∈ mapKeys mutatedState.highlightedCells
          ∧ "5-age" ∉ mutatedState.highlightStack.getLastD []) :=
  ⟨⟨by decide, by decide, by decide, by decide⟩,
   (undo_pops_exactly_last_operation mutatedState undoRespOk pageResp1
     (by decide) (by decide) (by decide) (by decide)).1,
   (undo_pops_exactly_last_operation mutatedState undoRespOk pageResp1
     (by decide) (by decide) (by decide) (by decide)).2.1,
   (undo_pops_exactly_last_operation mutatedState undoRespOk pageResp1
     (by decide) (by decide) (by decide) (by decide)).2.2 "5-age"⟩

/-! ## C1 — the highlight-ownership invariant across transitions -/

/-- A reachable-shaped state whose two stacked operations both own the key
`5-age` (two successive mutations of the same cell), with the Highlight Map
holding the later operation's color. -/
def overlapState : ClientState :=
  { loadedState with
    highlightedCells := [("5-age", "rgba(173, 216, 230, 0.6)")]
    highlightStack := [["5-age"], ["5-age"]]
    updatedRowIds := [5]
    undoCount := 2 }

/-- A successful undo response for the overlapping fixture. -/
def undoRespOk2 : UndoResponse :=
  { success := true, dataset_id := "ds1", session := "sess3",
    columns := some [("__row_id", "Int64"), ("age", "Int64")],
    row_count := some 1000,
    preview := some [[("__row_id", CellValue.num 0), ("age", CellValue.num 30)]],
    message := some "Changes reverted successfully.", undo_count := some 1 }

/-- Counterexample to C1 as stated: on `overlapState` the invariant holds,
but a successful undo deletes the shared key `5-age` from the Highlight Map
while the remaining stacked operation still owns it, so the undo transition
does not preserve the invariant. -/
theorem undo_overlap_breaks_invariant_counterexample :
    highlightInvariant overlapState
    ∧ ¬ highlightInvariant (handleUndo overlapState undoRespOk2 pageResp1).1 := by
  constructor
  · intro k
    show k ∈ mapKeys overlapState.highlightedCells ↔ _
    have hmk : mapKeys overlapState.highlightedCells = ["5-age"] := by decide
    have hst : overlapState.highlightStack = [["5-age"], ["5-age"]] := by decide
    rw [hmk, hst]
    simp
  · intro h
    have hmk : mapKeys (handleUndo overlapState undoRespOk2 pageResp1).1.highlightedCells
        = [] := by decide
    have hst : (handleUndo overlapState undoRespOk2 pageResp1).1.highlightStack
        = [["5-age"]] := by decide
    have h5 := (h "5-age").mpr ⟨["5-age"], by rw [hst]; simp, by simp⟩
    rw [hmk] at h5
    simp at h5

/-- Load and open never touch the highlight fields. -/
theorem load_open_highlight_frame (s : ClientState) (resp : LoadResponse)
    (pageResp : PageResponse) (id : String) :
    (loadDataset s resp pageResp).highlightedCells = s.highlightedCells
    ∧ (loadDataset s resp pageResp).highlightStack = s.highlightStack
    ∧ (openDataset s id resp pageResp).highlightedCells = s.highlightedCells
    ∧ (openDataset s id resp pageResp).highlightStack = s.highlightStack := by
  unfold loadDataset openDataset
  by_cases h : truthyStr resp.session <;>
    simp [h, fetchPage_frame]

/-- C1 (amended): every transition — `runNLQ` on any response, successful
or failed undo, `handleClearHighlights`, and dataset load/open — preserves
the equality between the Highlight Map's key set and the union of the
stacked operations' keys, provided (for the undo transition) that no key of
the most recent operation is also owned by an operation below it on the
stack; undoing overlapping operations violates the invariant (see the
counterexample). -/
theorem highlight_invariant_preserved (s : ClientState)
    (nresp : NLExprResponse) (rand : Nat) (p1 : PageResponse)
    (uresp : UndoResponse) (p2 : PageResponse)
    (lresp : LoadResponse) (p3 : PageResponse) (id : String)
    (hinv : highlightInvariant s)
    (hdisj : ∀ k ∈ s.highlightStack.getLastD [], ∀ op ∈ s.highlightStack.dropLast,
      k ∉ op) :
    highlightInvariant (runNLQ s nresp rand p1)
    ∧ highlightInvariant (handleUndo s uresp p2).1
    ∧ highlightInvariant (handleClearHighlights s)
    ∧ highlightInvariant (loadDataset s lresp p3)
    ∧ highlightInvariant (openDataset s id lresp p3) := by
  refine ⟨?_, ?_, ?_, ?_, ?_⟩
  · -- runNLQ
    by_cases hs : truthyStr s.session
    · rcases Nat.eq_zero_or_pos (nresp.updated_cells.getD []).length with h0 | hpos
      · obtain ⟨h1, h2⟩ := (runNLQ_highlight_fields s nresp rand p1 hs).1 h0
        exact highlightInvariant_of_eq h1 h2 hinv
      · obtain ⟨h1, h2⟩ := (runNLQ_highlight_fields s nresp rand p1 hs).2 hpos
        intro k
        rw [h1, h2, mem_mapKeys_mergeMap, mem_mapKeys_opHighlights]
        have hk := hinv k
        simp only [List.mem_append, List.mem_singleton]
        constructor
        · rintro (hm | ho)
          · obtain ⟨op, hop, hko⟩ := hk.mp hm
            exact ⟨op, Or.inl hop, hko⟩
          · exact ⟨operationKeys (nresp.updated_cells.getD []), Or.inr rfl, ho⟩
        · rintro ⟨op, hop | rfl, hko⟩
          · exact Or.inl (hk.mpr ⟨op, hop, hko⟩)
          · exact Or.inr hko
    · have hfalse : truthyStr s.session = false := by simpa using hs
      have h1 : (runNLQ s nresp rand p1).highlightedCells = s.highlightedCells := by
        simp [runNLQ, hfalse]
      have h2 : (runNLQ s nresp rand p1).highlightStack = s.highlightStack := by
        simp [runNLQ, hfalse]
      exact highlightInvariant_of_eq h1 h2 hinv
  · -- handleUndo
    by_cases hg : (truthyStr s.datasetId && truthyStr s.session) = true
    · by_cases hok : uresp.success
      · rcases eq_or_ne s.highlightStack [] with hemp | hne
        · obtain ⟨h2, h1⟩ := handleUndo_highlight_frame s uresp p2 (Or.inr (Or.inr hemp))
          exact highlightInvariant_of_eq h1 h2 hinv
        · have hlen : 0 < s.highlightStack.length := List.length_pos.mpr hne
          obtain ⟨hd, hs⟩ := Bool.and_eq_true_iff.mp hg
          obtain ⟨hstack, hcells⟩ :=
            handleUndo_highlight_fields s uresp p2 hd hs hok hlen
          intro k
          rw [hcells, hstack, mem_mapKeys_foldl_mapDelete, hinv k]
          have hsplit := dropLast_append_getLastD s.highlightStack [] hne
          constructor
          · rintro ⟨⟨op, hop, hko⟩, hnl⟩
            rw [← hsplit] at hop
            rcases List.mem_append.mp hop with hop' | hop'
            · exact ⟨op, hop', hko⟩
            · rw [List.mem_singleton] at hop'
              subst hop'
              exact absurd hko hnl
          · rintro ⟨op, hop, hko⟩
            refine ⟨⟨op, ?_, hko⟩, fun hl => hdisj k hl op hop hko⟩
            rw [← hsplit]
            exact List.mem_append.mpr (Or.inl hop)
      · have hok' : uresp.success = false := by simpa using hok
        obtain ⟨h2, h1⟩ := handleUndo_highlight_frame s uresp p2 (Or.inr (Or.inl hok'))
        exact highlightInvariant_of_eq h1 h2 hinv
    · have hg' : (truthyStr s.datasetId && truthyStr s.session) = false := by
        simpa using hg
      obtain ⟨h2, h1⟩ := handleUndo_highlight_frame s uresp p2 (Or.inl hg')
      exact highlightInvariant_of_eq h1 h2 hinv
  · -- handleClearHighlights
    intro k
    simp [handleClearHighlights, mapKeys]
  · -- loadDataset
    have h := load_open_highlight_frame s lresp p3 id
    exact highlightInvariant_of_eq h.1 h.2.1 hinv
  · -- openDataset
    have h := load_open_highlight_frame s lresp p3 id
    exact highlightInvariant_of_eq h.2.2.1 h.2.2.2 hinv

/-- Witness for C1 at a freshly loaded state (empty Highlight Map and empty
Undo Stack), where both hypotheses hold trivially. -/
theorem highlight_invariant_preserved_witness :
    highlightInvariant loadedState
    ∧ (∀ k ∈ loadedState.highlightStack.getLastD [],
        ∀ op ∈ loadedState.highlightStack.dropLast, k ∉ op)
    ∧ (highlightInvariant (runNLQ loadedState previewResp 0 pageResp1)
        ∧ highlightInvariant (handleUndo loadedState undoRespOk pageResp1).1
        ∧ highlightInvariant (handleClearHighlights loadedState)
        ∧ highlightInvariant (loadDataset loadedState loadResp1 pageResp1)
        ∧ highlightInvariant (openDataset loadedState "ds1" loadResp1 pageResp1)) :=
  have hinv : highlightInvariant loadedState := by
    intro k
    show k ∈ mapKeys loadedState.highlightedCells ↔ _
    have h1 : mapKeys loadedState.highlightedCells = [] := by decide
    have h2 : loadedState.highlightStack = [] := by decide
    rw [h1, h2]
    simp
  have hdisj : ∀ k ∈ loadedState.highlightStack.getLastD [],
      ∀ op ∈ loadedState.highlightStack.dropLast, k ∉ op := by
    intro k hk
    have : loadedState.highlightStack.getLastD [] = [] := by decide
    rw [this] at hk
    exact absurd hk (List.not_mem_nil k)
  ⟨hinv, hdisj,
   highlight_invariant_preserved loadedState previewResp 0 pageResp1 undoRespOk
     pageResp1 loadResp1 pageResp1 "ds1" hinv hdisj⟩

end PolarDemo
